import Mathlib

/-!
Verification development for the Twitter video-downloader service
(`src/main.py`, `src/cookie_watcher.py`).

The Python functions under scrutiny are shallowly embedded as executable
Lean definitions below; machine floats that only ever carry exact decimal
metadata (bitrates, timestamps) are modelled as rationals, Python `None`
and absent dictionary keys are both modelled as `Option.none` (the code
treats them identically at every point we model), and fallible code
returns `Except`.
-/

/-! ## URL validation (`main.py`: `is_valid_twitter_url`, lines 220-223)

The source checks `re.match(r'https?://(twitter\.com|x\.com)/.+/status/\d+', url)`.
`re.match` anchors at the start of the string only, so the pattern has to
match a prefix of `url` and trailing characters are ignored.  The embedding
below is a hand-rolled decision procedure for exactly that pattern:
an alternation of two scheme literals, an alternation of two host literals
(each followed by `/`), then at least one non-newline character, then the
literal `/status/`, then at least one ASCII digit.  The alternation branches
are mutually exclusive on their first character, so the if-chains below
implement the regex alternation faithfully. -/

def httpsChars : List Char := ['h', 't', 't', 'p', 's', ':', '/', '/']

def httpChars : List Char := ['h', 't', 't', 'p', ':', '/', '/']

def twitterSlash : List Char := ['t', 'w', 'i', 't', 't', 'e', 'r', '.', 'c', 'o', 'm', '/']

def xSlash : List Char := ['x', '.', 'c', 'o', 'm', '/']

def statusChars : List Char := ['/', 's', 't', 'a', 't', 'u', 's', '/']

/-- ASCII decimal digit test; models `\d` on the ASCII inputs the service
receives (the full Python `\d` also accepts other Unicode decimal digits). -/
def isAsciiDigit (c : Char) : Bool := '0' ≤ c && c ≤ '9'

/-- True when the list starts with an ASCII digit, i.e. `\d` matches here. -/
def isDigitAt : List Char → Bool
  | [] => false
  | c :: _ => isAsciiDigit c

/-- True when `/status/` followed by at least one digit matches at the head. -/
def isStatusAt (l : List Char) : Bool :=
  statusChars.isPrefixOf l && isDigitAt (l.drop 8)

/-- True when the list decomposes as `m ++ "/status/" ++ digit ++ _` with `m`
a non-empty run of non-newline characters: the `.+/status/\d+` part of the
pattern (`.` does not match a newline in Python). -/
def findMid : List Char → Bool
  | [] => false
  | c :: cs => !(c == '\n') && (isStatusAt cs || findMid cs)

/-- The `(twitter\.com|x\.com)/.+/status/\d+` part of the pattern. -/
def hostTail (l : List Char) : Bool :=
  if twitterSlash.isPrefixOf l then findMid (l.drop 12)
  else if xSlash.isPrefixOf l then findMid (l.drop 6)
  else false

/-- The whole pattern `https?://(twitter\.com|x\.com)/.+/status/\d+`,
matched as a prefix (no end anchor, exactly as `re.match`). -/
def validChars (l : List Char) : Bool :=
  if httpsChars.isPrefixOf l then hostTail (l.drop 8)
  else if httpChars.isPrefixOf l then hostTail (l.drop 7)
  else false

/-- `is_valid_twitter_url` from `main.py` lines 220-223. -/
def is_valid_twitter_url (url : String) : Bool :=
  validChars url.toList

/-! ## URL normalization (`main.py`: `normalize_twitter_url`, lines 214-218)

`url.strip()` followed by `re.sub(r'twitter\.com', 'x.com', url)` — the
pattern is a literal, so the substitution is a plain replace-all. -/

/-- The characters `str.strip()` removes (the ASCII whitespace set; the
URLs handled here are ASCII). -/
def isPySpace (c : Char) : Bool :=
  c == ' ' || c == '\t' || c == '\n' || c == '\r' || c == '\x0b' || c == '\x0c'

/-- `str.strip()`: drop leading and trailing whitespace. -/
def pyStrip (s : String) : String :=
  String.mk (((s.toList.dropWhile isPySpace).reverse.dropWhile isPySpace).reverse)

/-- Replace every (leftmost, non-overlapping) occurrence of `pat` by `rep`,
as Python `str.replace` / `re.sub` with a literal pattern do.  `fuel` bounds
the recursion by the length of the scanned list. -/
def replaceAux (pat rep : List Char) : Nat → List Char → List Char
  | 0, l => l
  | _ + 1, [] => []
  | fuel + 1, c :: cs =>
    if pat.isPrefixOf (c :: cs) then
      rep ++ replaceAux pat rep fuel (cs.drop (pat.length - 1))
    else
      c :: replaceAux pat rep fuel cs

/-- Python `s.replace(pat, rep)` for a non-empty `pat`. -/
def strReplace (s pat rep : String) : String :=
  String.mk (replaceAux pat.toList rep.toList (s.toList.length + 1) s.toList)

/-- `normalize_twitter_url` from `main.py` lines 214-218. -/
def normalize_twitter_url (url : String) : String :=
  strReplace (pyStrip url) "twitter.com" "x.com"

/-! ## Cache validity (`main.py`: `is_cache_valid`, lines 229-231)

`time.time() - cache_entry['timestamp'] < max_age`; the ambient clock is
made an explicit argument.  Timestamps are floats in the source, modelled
as rationals. -/

/-- A `video_cache` value: the extracted-result payload is irrelevant to the
cache-validity claims, only the `'timestamp'` key is read. -/
structure CacheEntry where
  timestamp : ℚ
deriving DecidableEq

/-- `is_cache_valid` from `main.py` lines 229-231; `max_age` defaults to 3600
seconds (one hour) as in the source. -/
def is_cache_valid (now : ℚ) (cache_entry : CacheEntry) (max_age : ℚ := 3600) : Bool :=
  decide (now - cache_entry.timestamp < max_age)

/-! ## Cache keys (`main.py`: `get_cache_key`, lines 225-227)

`hashlib.md5(url.encode()).hexdigest()`.  MD5 (RFC 1321) is implemented
below over byte lists, with 32-bit words as naturals reduced mod 2^32;
`url.encode()` is UTF-8 encoding. -/

/-- UTF-8 encoding of one character (1-4 bytes). -/
def charUtf8 (c : Char) : List Nat :=
  let n := c.toNat
  if n < 0x80 then [n]
  else if n < 0x800 then [0xC0 + n / 0x40, 0x80 + n % 0x40]
  else if n < 0x10000 then
    [0xE0 + n / 0x1000, 0x80 + (n / 0x40) % 0x40, 0x80 + n % 0x40]
  else
    [0xF0 + n / 0x40000, 0x80 + (n / 0x1000) % 0x40, 0x80 + (n / 0x40) % 0x40, 0x80 + n % 0x40]

/-- `str.encode()`: UTF-8 bytes of a string. -/
def utf8Bytes (s : String) : List Nat :=
  s.toList.flatMap charUtf8

/-- Bitwise combination of the low `fuel` bits of two naturals (structural
recursion so that the kernel can evaluate it). -/
def bitwiseFuel (f : Bool → Bool → Bool) : Nat → Nat → Nat → Nat
  | 0, _, _ => 0
  | fuel + 1, a, b =>
    (if f (a % 2 == 1) (b % 2 == 1) then 1 else 0) + 2 * bitwiseFuel f fuel (a / 2) (b / 2)

def and32 (a b : Nat) : Nat := bitwiseFuel (fun x y => x && y) 32 a b

def or32 (a b : Nat) : Nat := bitwiseFuel (fun x y => x || y) 32 a b

def xor32 (a b : Nat) : Nat := bitwiseFuel (fun x y => x != y) 32 a b

/-- Bitwise complement of a 32-bit word. -/
def not32 (a : Nat) : Nat := 4294967295 - a % 4294967296

/-- Left-rotation of a 32-bit word by `s` bits (`0 < s < 32`). -/
def rotl32 (x s : Nat) : Nat :=
  ((x % 4294967296) * 2 ^ s) % 4294967296 + (x % 4294967296) / 2 ^ (32 - s)

/-- The MD5 sine-derived round constants `K[0..63]`. -/
def md5K : List Nat :=
  [0xd76aa478, 0xe8c7b756, 0x242070db, 0xc1bdceee,
   0xf57c0faf, 0x4787c62a, 0xa8304613, 0xfd469501,
   0x698098d8, 0x8b44f7af, 0xffff5bb1, 0x895cd7be,
   0x6b901122, 0xfd987193, 0xa679438e, 0x49b40821,
   0xf61e2562, 0xc040b340, 0x265e5a51, 0xe9b6c7aa,
   0xd62f105d, 0x02441453, 0xd8a1e681, 0xe7d3fbc8,
   0x21e1cde6, 0xc33707d6, 0xf4d50d87, 0x455a14ed,
   0xa9e3e905, 0xfcefa3f8, 0x676f02d9, 0x8d2a4c8a,
   0xfffa3942, 0x8771f681, 0x6d9d6122, 0xfde5380c,
   0xa4beea44, 0x4bdecfa9, 0xf6bb4b60, 0xbebfbc70,
   0x289b7ec6, 0xeaa127fa, 0xd4ef3085, 0x04881d05,
   0xd9d4d039, 0xe6db99e5, 0x1fa27cf8, 0xc4ac5665,
   0xf4292244, 0x432aff97, 0xab9423a7, 0xfc93a039,
   0x655b59c3, 0x8f0ccc92, 0xffeff47d, 0x85845dd1,
   0x6fa87e4f, 0xfe2ce6e0, 0xa3014314, 0x4e0811a1,
   0xf7537e82, 0xbd3af235, 0x2ad7d2bb, 0xeb86d391]

/-- The MD5 per-round left-rotation amounts `s[0..63]`. -/
def md5S : List Nat :=
  [7, 12, 17, 22, 7, 12, 17, 22, 7, 12, 17, 22, 7, 12, 17, 22,
   5, 9, 14, 20, 5, 9, 14, 20, 5, 9, 14, 20, 5, 9, 14, 20,
   4, 11, 16, 23, 4, 11, 16, 23, 4, 11, 16, 23, 4, 11, 16, 23,
   6, 10, 15, 21, 6, 10, 15, 21, 6, 10, 15, 21, 6, 10, 15, 21]

/-- Split a list into chunks of `size` elements (`fuel` bounds recursion). -/
def chunksOf (size : Nat) : Nat → List Nat → List (List Nat)
  | 0, _ => []
  | _ + 1, [] => []
  | fuel + 1, l => l.take size :: chunksOf size fuel (l.drop size)

/-- Interpret a 64-byte block as 16 little-endian 32-bit words. -/
def leWords (block : List Nat) : List Nat :=
  (chunksOf 4 (block.length + 1) block).map fun c =>
    c.getD 0 0 + 256 * c.getD 1 0 + 65536 * c.getD 2 0 + 16777216 * c.getD 3 0

/-- One MD5 round (of 64) applied to the register quadruple. -/
def md5Round (m : List Nat) (st : Nat × Nat × Nat × Nat) (i : Nat) : Nat × Nat × Nat × Nat :=
  let a := st.1
  let b := st.2.1
  let c := st.2.2.1
  let d := st.2.2.2
  let f :=
    if i < 16 then or32 (and32 b c) (and32 (not32 b) d)
    else if i < 32 then or32 (and32 d b) (and32 (not32 d) c)
    else if i < 48 then xor32 b (xor32 c d)
    else xor32 c (or32 b (not32 d))
  let g :=
    if i < 16 then i
    else if i < 32 then (5 * i + 1) % 16
    else if i < 48 then (3 * i + 5) % 16
    else (7 * i) % 16
  let tmp := (f + a + md5K.getD i 0 + m.getD g 0) % 4294967296
  (d, (b + rotl32 tmp (md5S.getD i 0)) % 4294967296, b, c)

/-- Process one padded 64-byte block, updating the four registers. -/
def md5Block (st : Nat × Nat × Nat × Nat) (block : List Nat) : Nat × Nat × Nat × Nat :=
  let m := leWords block
  let r := (List.range 64).foldl (md5Round m) st
  ((st.1 + r.1) % 4294967296, (st.2.1 + r.2.1) % 4294967296,
   (st.2.2.1 + r.2.2.1) % 4294967296, (st.2.2.2 + r.2.2.2) % 4294967296)

/-- MD5 padding: a `0x80` byte, zeros to 56 mod 64, then the bit length as
a 64-bit little-endian quantity. -/
def md5Pad (msg : List Nat) : List Nat :=
  let len := msg.length
  let zeros := (120 - (len + 1) % 64) % 64
  let bitLen := (len * 8) % 18446744073709551616
  msg ++ [128] ++ List.replicate zeros 0 ++
    (List.range 8).map (fun i => (bitLen / 2 ^ (8 * i)) % 256)

/-- The 16 digest bytes of MD5 applied to a byte list. -/
def md5Digest (msg : List Nat) : List Nat :=
  let padded := md5Pad msg
  let blocks := chunksOf 64 (padded.length + 1) padded
  let r := blocks.foldl md5Block (0x67452301, 0xefcdab89, 0x98badcfe, 0x10325476)
  [r.1, r.2.1, r.2.2.1, r.2.2.2].flatMap fun w =>
    (List.range 4).map fun i => (w / 2 ^ (8 * i)) % 256

/-- Lowercase hexadecimal digit. -/
def hexDigit (n : Nat) : Char :=
  if n < 10 then Char.ofNat (48 + n) else Char.ofNat (87 + n)

/-- Lowercase hex rendering of a digest, as `hexdigest()` produces. -/
def md5Hex (msg : List Nat) : String :=
  String.mk ((md5Digest msg).flatMap fun b => [hexDigit (b / 16), hexDigit (b % 16)])

/-- `get_cache_key` from `main.py` lines 225-227:
`hashlib.md5(url.encode()).hexdigest()`. -/
def get_cache_key (url : String) : String :=
  md5Hex (utf8Bytes url)

/-- The cache key actually used by `fetch_video_data` (`main.py` line 669):
it is computed from the raw request URL, before `normalize_twitter_url`
is applied (normalization is used only for validation on line 662). -/
def fetch_cache_key (url : String) : String :=
  get_cache_key url

/-! ## MP4 format ranking (`main.py`: `extract_video_info`, lines 258-306)

A yt-dlp format dictionary is embedded as a structure of optional fields:
`none` stands for both an absent key and a `None` value — the source
treats the two identically everywhere it touches these fields
(`fmt.get(k, 0)` followed by `x[k] or 0` both collapse to the same
default).  The numeric fields (`height`, `tbr`, `vbr`, `fps`, …) are
floats or ints in the source and are modelled as rationals. -/

structure FormatInfo where
  ext : Option String := none
  vcodec : Option String := none
  height : Option ℚ := none
  width : Option ℚ := none
  tbr : Option ℚ := none
  vbr : Option ℚ := none
  fps : Option ℚ := none
  filesize : Option ℚ := none
  url : Option String := none
  format_note : Option String := none
deriving DecidableEq

/-- The filter on line 268: `fmt.get('ext') == 'mp4' and fmt.get('vcodec') != 'none'`.
Note that a missing `vcodec` (`None != 'none'` is true in Python) passes. -/
def isQualifyingMp4 (f : FormatInfo) : Bool :=
  f.ext == some "mp4" && !(f.vcodec == some "none")

/-- The `mp4_formats` list built on lines 266-281 (projected back onto the
underlying format record, which each `quality_info` carries in full). -/
def mp4Filter (formats : List FormatInfo) : List FormatInfo :=
  formats.filter isQualifyingMp4

/-- The sort key of lines 292-297: the 4-tuple
`(height or 0, tbr or 0, vbr or 0, fps or 0)` under the lexicographic
order (Python compares key tuples lexicographically). -/
def qKey (f : FormatInfo) : Lex (ℚ × Lex (ℚ × Lex (ℚ × ℚ))) :=
  toLex (f.height.getD 0, toLex (f.tbr.getD 0, toLex (f.vbr.getD 0, f.fps.getD 0)))

/-- `a` ranks at least as high as `b`: `reverse=True` sorts by descending
key, so the sort relation puts larger keys first. -/
def keyGE (a b : FormatInfo) : Prop :=
  qKey b ≤ qKey a

instance : DecidableRel keyGE := fun a b =>
  inferInstanceAs (Decidable (qKey b ≤ qKey a))

instance : IsTotal FormatInfo keyGE :=
  ⟨fun a b => le_total (qKey b) (qKey a)⟩

instance : IsTrans FormatInfo keyGE :=
  ⟨fun _ _ _ h1 h2 => le_trans h2 h1⟩

/-- The `mp4_formats.sort(key=..., reverse=True)` call of lines 292-297:
a stable sort placing larger 4-tuple keys first.  (The source uses
Python's stable sort; any sort satisfies the ordering properties the
spec states, since tie order is explicitly unspecified.) -/
def rankFormats (formats : List FormatInfo) : List FormatInfo :=
  List.insertionSort keyGE (mp4Filter formats)

/-- The format-selection slice of `extract_video_info`
(lines 258-260, 266-289, 291-306, 363-366): reject an empty format list,
reject when no MP4 format with a video codec remains, otherwise pick the
head of the descending ranking and insist it carries a download URL. -/
def selectBestMp4 (formats : List FormatInfo) : Except String FormatInfo :=
  if formats.isEmpty then Except.error "No video formats found"
  else
    match rankFormats formats with
    | [] => Except.error "No MP4 video formats available"
    | best :: _ =>
      if best.url.getD "" = "" then Except.error "Could not extract download URL"
      else Except.ok best

/-! ## Cookie-jar transform (`cookie_watcher.py`:
`convert_raw_cookies_to_netscape`, lines 22-56)

A raw browser cookie record is a JSON object; the fields the transform
reads are embedded as optional fields (`none` = key absent).  The expiry
source value can be a JSON number or string, captured by `PyVal`. -/

inductive PyVal where
  | vInt (n : Int)
  | vStr (s : String)
deriving DecidableEq

structure RawCookie where
  domain : Option String := none
  path : Option String := none
  secure : Option Bool := none
  expirationDate : Option PyVal := none
  expires : Option PyVal := none
  name : Option String := none
  value : Option String := none
deriving DecidableEq

/-- `s.startswith(p)`. -/
def strStartsWith (s p : String) : Bool :=
  p.toList.isPrefixOf s.toList

/-- Substring containment scan over the character list. -/
def containsSub (needle : List Char) : List Char → Bool
  | [] => needle.isPrefixOf []
  | c :: cs => needle.isPrefixOf (c :: cs) || containsSub needle cs

/-- Python `sub in s`. -/
def strContains (s sub : String) : Bool :=
  containsSub sub.toList s.toList

/-- Lines 28-31: `domain = cookie.get('domain', '')`, then prefix a dot
when the domain is non-empty and not already dotted. -/
def dotDomain (c : RawCookie) : String :=
  let d := c.domain.getD ""
  if d == "" then d
  else if strStartsWith d "." then d
  else "." ++ d

/-- Line 33: `flag = 'TRUE' if domain.startswith('.') else 'FALSE'`. -/
def hostFlag (c : RawCookie) : String :=
  if strStartsWith (dotDomain c) "." then "TRUE" else "FALSE"

/-- Line 34: `path = cookie.get('path', '/')`. -/
def cookiePath (c : RawCookie) : String :=
  c.path.getD "/"

/-- Line 35: `secure = 'TRUE' if cookie.get('secure', False) else 'FALSE'`. -/
def secureFlag (c : RawCookie) : String :=
  if c.secure.getD false then "TRUE" else "FALSE"

/-- All-digit parse of a non-empty run. -/
def digitsVal : List Char → Option Nat
  | [] => none
  | [c] => if isAsciiDigit c then some (c.toNat - 48) else none
  | c :: cs =>
    if isAsciiDigit c then
      (digitsVal cs).map fun n => (c.toNat - 48) * 10 ^ cs.length + n
    else none

/-- The integer part of `[digits].[digits]` (fraction optional, both runs
non-empty when present). -/
def decimalIntPart (l : List Char) : Option Nat :=
  match l.splitOn '.' with
  | [whole] => digitsVal whole
  | [whole, frac] => if frac ≠ [] && (digitsVal frac).isSome then digitsVal whole else none
  | _ => none

/-- Model of Python `int(float(s))` on plain decimal literals with an
optional sign and optional fraction (truncation toward zero).  Exotic
float syntax (exponents, `inf`, embedded whitespace) is treated as a
parse failure; no claim exercises those shapes. -/
def pyFloatInt (s : String) : Option Int :=
  match s.toList with
  | '-' :: rest => (decimalIntPart rest).map fun n => -(n : Int)
  | '+' :: rest => (decimalIntPart rest).map fun n => (n : Int)
  | l => (decimalIntPart l).map fun n => (n : Int)

/-- Lines 38-42: `expiration_raw = cookie.get('expirationDate', cookie.get('expires', 0))`
then `str(int(float(expiration_raw))) if expiration_raw else '0'`, with
any exception collapsing to `'0'`.  `0` and `''` are falsy. -/
def expirationStr (c : RawCookie) : String :=
  match c.expirationDate.getD (c.expires.getD (PyVal.vInt 0)) with
  | PyVal.vInt n => if n = 0 then "0" else toString n
  | PyVal.vStr s =>
    if s == "" then "0"
    else match pyFloatInt s with
      | some n => toString n
      | none => "0"

/-- Line 44: `name = cookie.get('name', '')`. -/
def cookieName (c : RawCookie) : String :=
  c.name.getD ""

/-- Line 45: `value = cookie.get('value', '')`. -/
def cookieValue (c : RawCookie) : String :=
  c.value.getD ""

/-- Tab-joined 7-field cookie-jar line. -/
def tabJoin (fields : List String) : String :=
  String.intercalate "\t" fields

/-- Line 49: the primary output line for a cookie. -/
def cookieLine1 (c : RawCookie) : String :=
  tabJoin [dotDomain c, hostFlag c, cookiePath c, secureFlag c,
           expirationStr c, cookieName c, cookieValue c]

/-- Line 54: `twitter_domain = domain.replace('x.com', 'twitter.com')`. -/
def twitterDomain (c : RawCookie) : String :=
  strReplace (dotDomain c) "x.com" "twitter.com"

/-- Line 55: the compatibility duplicate line. -/
def cookieLine2 (c : RawCookie) : String :=
  tabJoin [twitterDomain c, hostFlag c, cookiePath c, secureFlag c,
           expirationStr c, cookieName c, cookieValue c]

/-- Line 47: `if name and value and domain` — an empty string is falsy, so
all three must be non-empty for anything to be written. -/
def cookieWritten (c : RawCookie) : Bool :=
  !(cookieName c == "") && !(cookieValue c == "") && !(dotDomain c == "")

/-- Lines 47-56: the output lines one cookie record contributes; the
duplicate is emitted when `'x.com' in domain` (substring containment). -/
def cookieLines (c : RawCookie) : List String :=
  if cookieWritten c then
    if strContains (dotDomain c) "x.com" then [cookieLine1 c, cookieLine2 c]
    else [cookieLine1 c]
  else []

/-- Lines 22-24: the two comment lines and the blank line that the header
`f.write("# Netscape HTTP Cookie File\n"); f.write("# This is a generated file! Do not edit.\n\n")`
produces. -/
def netscapeHeader : List String :=
  ["# Netscape HTTP Cookie File", "# This is a generated file! Do not edit.", ""]

/-- `convert_raw_cookies_to_netscape` restricted to its text transform:
the list of lines written to `cookies.txt` for a parsed cookie array
(file I/O and JSON parsing are outside the model; the file is rewritten
wholesale on every call). -/
def convert_raw_cookies_to_netscape (cookies : List RawCookie) : List String :=
  netscapeHeader ++ cookies.flatMap cookieLines

/-! ## The two-attempt extraction dispatcher (`main.py`:
`extract_video_info`, lines 244-252 and 420-434)

The yt-dlp collaborator is external; its two possible invocations are
embedded as given outcomes (`firstAttempt` without cookies,
`cookieAttempt` with cookies) together with the `os.path.exists(COOKIES_FILE)`
test, and the dispatcher is instrumented with the number of collaborator
invocations it performs. -/

structure ExtractAttempts (R : Type) where
  firstAttempt : Except String R
  cookieAttempt : Except String R
  cookiesFileExists : Bool

/-- Line 425: the keyword list the error text is matched against. -/
def AUTH_KEYWORDS : List String :=
  ["403", "401", "Forbidden", "Unauthorized", "private", "protected",
   "NSFW", "authentication", "requires authentication"]

/-- Line 425: `any(keyword in error_msg for keyword in [...])`. -/
def suggests_auth (error_msg : String) : Bool :=
  AUTH_KEYWORDS.any fun k => strContains error_msg k

/-- The control flow of `extract_video_info` around its collaborator
calls: first attempt without cookies; on failure, retry with cookies
exactly when the error text suggests an authentication problem and a
cookies file exists, re-raising the second error otherwise surfacing the
first.  The second component counts collaborator invocations. -/
def extract_video_info_run {R : Type} (env : ExtractAttempts R) : Except String R × Nat :=
  match env.firstAttempt with
  | Except.ok r => (Except.ok r, 1)
  | Except.error e =>
    if suggests_auth e then
      if env.cookiesFileExists then (env.cookieAttempt, 2)
      else (Except.error e, 1)
    else (Except.error e, 1)

/-! ## Concrete inputs used by the claims -/

/-- The cookie record of spec §8: `{"domain":"x.com","name":"a","value":"b","secure":true}`. -/
def specCookie : RawCookie :=
  { domain := some "x.com", secure := some true, name := some "a", value := some "b" }

/-- A record with name and value but no domain at all. -/
def noDomainCookie : RawCookie :=
  { name := some "a", value := some "b" }

/-- A record whose domain merely contains `x.com` as a substring. -/
def netflixCookie : RawCookie :=
  { domain := some "netflix.com", name := some "a", value := some "b" }

/-- A 720p MP4 format with a URL. -/
def fmt720 : FormatInfo :=
  { ext := some "mp4", vcodec := some "avc1", height := some 720, tbr := some 950,
    url := some "https://video.twimg.com/720.mp4" }

/-- A 1080p MP4 format with a URL. -/
def fmt1080 : FormatInfo :=
  { ext := some "mp4", vcodec := some "avc1", height := some 1080, tbr := some 2176,
    url := some "https://video.twimg.com/1080.mp4" }

/-- Another 1080p MP4 format, tied on height, lower total bitrate. -/
def fmt1080lo : FormatInfo :=
  { ext := some "mp4", vcodec := some "avc1", height := some 1080, tbr := some 1200,
    url := some "https://video.twimg.com/1080lo.mp4" }

/-- An audio-only m4a descriptor: does not qualify. -/
def fmtAudio : FormatInfo :=
  { ext := some "m4a", vcodec := some "none", tbr := some 128,
    url := some "https://video.twimg.com/audio.m4a" }

/-- An HLS descriptor: wrong container, does not qualify. -/
def fmtHls : FormatInfo :=
  { ext := some "m3u8", vcodec := some "avc1", height := some 1080 }

/-- A mixed format list with three qualifying MP4 entries. -/
def demoFormats : List FormatInfo :=
  [fmtAudio, fmt720, fmtHls, fmt1080lo, fmt1080]

/-- A first-attempt outcome that fails with an auth-suggesting error while
a cookies file is present: the dispatcher then calls the collaborator again. -/
def authFailEnv : ExtractAttempts Nat :=
  { firstAttempt := Except.error "HTTP Error 403: Forbidden",
    cookieAttempt := Except.ok 0,
    cookiesFileExists := true }

/-- A first-attempt outcome failing with a non-auth error. -/
def plainFailEnv : ExtractAttempts Nat :=
  { firstAttempt := Except.error "Unsupported URL: boom",
    cookieAttempt := Except.ok 0,
    cookiesFileExists := true }

/-- A cache entry inserted at time 50 (for witnesses). -/
def demoEntry : CacheEntry := { timestamp := 50 }

/-- Number of tab-separated fields on a line: tab count plus one (the
fields written by the transform never contain a tab themselves). -/
def tabFieldCount (s : String) : Nat :=
  (s.toList.filter fun c => c == '\t').length + 1

/-! ## Helper lemmas -/

theorem cookieWritten_iff (c : RawCookie) :
    cookieWritten c = true ↔
      (cookieName c ≠ "" ∧ cookieValue c ≠ "" ∧ dotDomain c ≠ "") := by
  unfold cookieWritten
  simp [Bool.and_eq_true, and_assoc]

theorem dotDomain_ne_iff (c : RawCookie) :
    dotDomain c ≠ "" ↔ c.domain.getD "" ≠ "" := by
  unfold dotDomain
  by_cases hd : c.domain.getD "" = ""
  · simp [hd]
  · rw [if_neg (by simpa using hd)]
    by_cases hs : strStartsWith (c.domain.getD "") "." = true
    · rw [if_pos hs]
    · rw [if_neg hs]
      constructor
      · intro _
        exact hd
      · intro _ hcon
        have hlen := congrArg String.length hcon
        rw [String.length_append] at hlen
        simp at hlen
        exact absurd hlen.1 (by decide)

theorem isPrefixOf_append_of {p l : List Char} (s : List Char) (h : p.isPrefixOf l = true) :
    p.isPrefixOf (l ++ s) = true := by
  rw [List.isPrefixOf_iff_prefix] at h ⊢
  exact h.trans (List.prefix_append l s)

theorem exists_append_of_isPrefixOf {p l : List Char} (h : p.isPrefixOf l = true) :
    ∃ t, l = p ++ t := by
  rw [List.isPrefixOf_iff_prefix] at h
  obtain ⟨t, ht⟩ := h
  exact ⟨t, ht.symm⟩

theorem isPrefixOf_self_append (p t : List Char) : p.isPrefixOf (p ++ t) = true := by
  rw [List.isPrefixOf_iff_prefix]
  exact List.prefix_append p t

theorem length_le_of_isPrefixOf {p l : List Char} (h : p.isPrefixOf l = true) :
    p.length ≤ l.length := by
  rw [List.isPrefixOf_iff_prefix] at h
  exact h.length_le

theorem isDigitAt_append {l : List Char} (s : List Char) (h : isDigitAt l = true) :
    isDigitAt (l ++ s) = true := by
  cases l with
  | nil => simp [isDigitAt] at h
  | cons c cs => simpa [isDigitAt] using h

theorem isStatusAt_append {l : List Char} (s : List Char) (h : isStatusAt l = true) :
    isStatusAt (l ++ s) = true := by
  unfold isStatusAt at h ⊢
  rw [Bool.and_eq_true] at h
  have h8 : 8 ≤ l.length := by
    have := length_le_of_isPrefixOf h.1
    simpa [statusChars] using this
  rw [Bool.and_eq_true, List.drop_append_of_le_length h8]
  exact ⟨isPrefixOf_append_of s h.1, isDigitAt_append s h.2⟩

theorem findMid_append {l : List Char} (s : List Char) (h : findMid l = true) :
    findMid (l ++ s) = true := by
  induction l with
  | nil => simp [findMid] at h
  | cons c cs ih =>
    rw [List.cons_append]
    unfold findMid at h ⊢
    rw [Bool.and_eq_true, Bool.or_eq_true] at h ⊢
    refine ⟨h.1, ?_⟩
    rcases h.2 with h2 | h2
    · exact Or.inl (isStatusAt_append s h2)
    · exact Or.inr (ih h2)

theorem hostTail_append {l : List Char} (s : List Char) (h : hostTail l = true) :
    hostTail (l ++ s) = true := by
  unfold hostTail at h
  by_cases h1 : twitterSlash.isPrefixOf l = true
  · rw [if_pos h1] at h
    obtain ⟨t, rfl⟩ := exists_append_of_isPrefixOf h1
    rw [List.drop_left' (show twitterSlash.length = 12 from rfl)] at h
    rw [List.append_assoc]
    unfold hostTail
    rw [if_pos (isPrefixOf_self_append twitterSlash (t ++ s))]
    rw [List.drop_left' (show twitterSlash.length = 12 from rfl)]
    exact findMid_append s h
  · rw [if_neg h1] at h
    by_cases h2 : xSlash.isPrefixOf l = true
    · rw [if_pos h2] at h
      obtain ⟨t, rfl⟩ := exists_append_of_isPrefixOf h2
      rw [List.drop_left' (show xSlash.length = 6 from rfl)] at h
      rw [List.append_assoc]
      unfold hostTail
      rw [if_neg (show ¬twitterSlash.isPrefixOf (xSlash ++ (t ++ s)) = true by
        intro hc; simp [twitterSlash, xSlash, List.isPrefixOf] at hc)]
      rw [if_pos (isPrefixOf_self_append xSlash (t ++ s))]
      rw [List.drop_left' (show xSlash.length = 6 from rfl)]
      exact findMid_append s h
    · rw [if_neg h2] at h
      exact absurd h (by simp)

theorem validChars_append {l : List Char} (s : List Char) (h : validChars l = true) :
    validChars (l ++ s) = true := by
  unfold validChars at h
  by_cases h1 : httpsChars.isPrefixOf l = true
  · rw [if_pos h1] at h
    obtain ⟨t, rfl⟩ := exists_append_of_isPrefixOf h1
    rw [List.drop_left' (show httpsChars.length = 8 from rfl)] at h
    rw [List.append_assoc]
    unfold validChars
    rw [if_pos (isPrefixOf_self_append httpsChars (t ++ s))]
    rw [List.drop_left' (show httpsChars.length = 8 from rfl)]
    exact hostTail_append s h
  · rw [if_neg h1] at h
    by_cases h2 : httpChars.isPrefixOf l = true
    · rw [if_pos h2] at h
      obtain ⟨t, rfl⟩ := exists_append_of_isPrefixOf h2
      rw [List.drop_left' (show httpChars.length = 7 from rfl)] at h
      rw [List.append_assoc]
      unfold validChars
      rw [if_neg (show ¬httpsChars.isPrefixOf (httpChars ++ (t ++ s)) = true by
        intro hc; simp [httpsChars, httpChars, List.isPrefixOf] at hc)]
      rw [if_pos (isPrefixOf_self_append httpChars (t ++ s))]
      rw [List.drop_left' (show httpChars.length = 7 from rfl)]
      exact hostTail_append s h
    · rw [if_neg h2] at h
      exact absurd h (by simp)

/-! ## Claim theorems -/

/-- Claim C3: `is_cache_valid` returns true exactly when `now - timestamp`
is strictly below `max_age` (default 3600), and false exactly at and after
that boundary. -/
theorem c3_cache_validity (now : ℚ) (e : CacheEntry) (max_age : ℚ) :
    (is_cache_valid now e max_age = true ↔ now - e.timestamp < max_age) ∧
    (is_cache_valid now e max_age = false ↔ max_age ≤ now - e.timestamp) := by
  constructor
  · simp [is_cache_valid]
  · simp [is_cache_valid, not_lt]

/-- Claim C3, instantiated: at `now = 3650` an entry inserted at 50 sits
exactly on the boundary `now - t = 3600` and is invalid. -/
theorem c3_cache_validity_witness :
    (is_cache_valid 3650 demoEntry 3600 = true ↔ (3650 : ℚ) - demoEntry.timestamp < 3600) ∧
    (is_cache_valid 3650 demoEntry 3600 = false ↔ (3600 : ℚ) ≤ 3650 - demoEntry.timestamp) :=
  c3_cache_validity 3650 demoEntry 3600

/-- Claim C5: URL validation accepts the two well-formed post URLs and
rejects the URL without a user segment and the URL on a foreign domain. -/
theorem c5_url_validation_examples :
    is_valid_twitter_url "https://x.com/alice/status/12345" = true ∧
    is_valid_twitter_url "https://twitter.com/bob/status/1" = true ∧
    is_valid_twitter_url "https://x.com/status/123" = false ∧
    is_valid_twitter_url "https://example.com/alice/status/1" = false := by
  decide

/-- Claim C10: the validator performs a prefix match with no end anchor,
so acceptance is preserved by appending arbitrary trailing characters. -/
theorem c10_validation_prefix_closed (url suffix : String)
    (h : is_valid_twitter_url url = true) :
    is_valid_twitter_url (url ++ suffix) = true := by
  unfold is_valid_twitter_url at h ⊢
  have hl : (url ++ suffix).toList = url.toList ++ suffix.toList := by
    cases url
    cases suffix
    rfl
  rw [hl]
  exact validChars_append suffix.toList h

/-- Claim C10, instantiated at the two extensions named by the claim. -/
theorem c10_validation_prefix_closed_witness :
    is_valid_twitter_url "https://x.com/alice/status/12345" = true ∧
    is_valid_twitter_url ("https://x.com/alice/status/12345" ++ "/photo/1") = true ∧
    is_valid_twitter_url ("https://x.com/alice/status/12345" ++ "?s=20") = true :=
  ⟨by decide,
   c10_validation_prefix_closed _ "/photo/1" (by decide),
   c10_validation_prefix_closed _ "?s=20" (by decide)⟩

/-- Claim C1: for any format list whose MP4 filter is non-empty, the
ranking (a pure function, hence deterministic) is a permutation of the
qualifying entries sorted descending by the lexicographic 4-tuple
`(height, tbr, vbr, fps)` with missing fields as 0 — so ties at maximal
height are broken by total bitrate, then video bitrate, then frame rate —
and the first element's height is maximal among qualifying entries. -/
theorem c1_ranking_descending (formats : List FormatInfo) (h : mp4Filter formats ≠ []) :
    List.Sorted keyGE (rankFormats formats) ∧
    (rankFormats formats).Perm (mp4Filter formats) ∧
    ∃ best rest, rankFormats formats = best :: rest ∧
      ∀ g ∈ mp4Filter formats, g.height.getD 0 ≤ best.height.getD 0 := by
  have hperm : (rankFormats formats).Perm (mp4Filter formats) :=
    List.perm_insertionSort keyGE (mp4Filter formats)
  have hsorted : List.Sorted keyGE (rankFormats formats) :=
    List.sorted_insertionSort keyGE (mp4Filter formats)
  refine ⟨hsorted, hperm, ?_⟩
  have hne : rankFormats formats ≠ [] := by
    intro he
    exact h (he ▸ hperm).symm.eq_nil
  obtain ⟨best, rest, heq⟩ := List.exists_cons_of_ne_nil hne
  refine ⟨best, rest, heq, ?_⟩
  intro g hg
  have hgmem : g ∈ rankFormats formats := hperm.mem_iff.mpr hg
  rw [heq] at hgmem hsorted
  rcases List.mem_cons.mp hgmem with rfl | hmem
  · exact le_refl _
  · have hrel : keyGE best g := (List.sorted_cons.mp hsorted).1 g hmem
    unfold keyGE qKey at hrel
    rw [Prod.Lex.le_iff] at hrel
    rcases hrel with hlt | ⟨heq1, _⟩
    · exact le_of_lt hlt
    · exact le_of_eq heq1

/-- Claim C1, instantiated on a mixed five-format list with a height tie. -/
theorem c1_ranking_descending_witness :
    mp4Filter demoFormats ≠ [] ∧
    (List.Sorted keyGE (rankFormats demoFormats) ∧
     (rankFormats demoFormats).Perm (mp4Filter demoFormats) ∧
     ∃ best rest, rankFormats demoFormats = best :: rest ∧
       ∀ g ∈ mp4Filter demoFormats, g.height.getD 0 ≤ best.height.getD 0) :=
  ⟨by decide, c1_ranking_descending demoFormats (by decide)⟩

/-- Claim C2 counterexample: the empty format list has no qualifying entry,
yet extraction fails with the earlier error `"No video formats found"`, not
with `"No MP4 video formats available"` as the claim states. -/
theorem c2_counterexample :
    (∀ f ∈ ([] : List FormatInfo), ¬isQualifyingMp4 f = true) ∧
    selectBestMp4 [] = Except.error "No video formats found" ∧
    selectBestMp4 [] ≠ Except.error "No MP4 video formats available" := by
  refine ⟨by simp, rfl, ?_⟩
  intro hc
  rw [show selectBestMp4 [] = Except.error "No video formats found" from rfl] at hc
  simp only [Except.error.injEq] at hc
  exact absurd hc (by decide)

/-- Claim C2 (amended): a format list with no qualifying entry always makes
extraction fail; a non-empty one fails with `"No MP4 video formats
available"`, while the empty list is rejected earlier with
`"No video formats found"`. -/
theorem c2_no_qualifying_formats_fail (formats : List FormatInfo)
    (h : ∀ f ∈ formats, ¬isQualifyingMp4 f = true) :
    (formats ≠ [] → selectBestMp4 formats = Except.error "No MP4 video formats available") ∧
    (formats = [] → selectBestMp4 formats = Except.error "No video formats found") := by
  have hfil : mp4Filter formats = [] := List.filter_eq_nil_iff.mpr h
  have hrank : rankFormats formats = [] := by
    unfold rankFormats
    rw [hfil]
    rfl
  constructor
  · intro hne
    unfold selectBestMp4
    rw [if_neg (show ¬formats.isEmpty = true by
      simp only [List.isEmpty_iff]
      exact hne)]
    rw [hrank]
  · intro he
    subst he
    rfl

/-- Claim C2 (amended), instantiated on a list of one audio-only and one
HLS descriptor. -/
theorem c2_no_qualifying_formats_fail_witness :
    (∀ f ∈ [fmtAudio, fmtHls], ¬isQualifyingMp4 f = true) ∧
    ([fmtAudio, fmtHls] ≠ [] →
      selectBestMp4 [fmtAudio, fmtHls] = Except.error "No MP4 video formats available") ∧
    ([fmtAudio, fmtHls] = [] →
      selectBestMp4 [fmtAudio, fmtHls] = Except.error "No video formats found") :=
  ⟨by decide, c2_no_qualifying_formats_fail [fmtAudio, fmtHls] (by decide)⟩

/-- Claim C6 counterexample: a record with non-empty name and value but no
domain is silently skipped — zero output lines — although the claim says a
record is written whenever name and value are both present, with the
domain merely defaulting to the empty string. -/
theorem c6_counterexample :
    cookieName noDomainCookie = "a" ∧
    cookieValue noDomainCookie = "b" ∧
    cookieLines noDomainCookie = [] := by
  decide

/-- Claim C6 (amended): a record produces output lines exactly when its
name, value AND domain are all present and non-empty; when written, its
first line is built from the defaulted remaining fields (path `/`, secure
`FALSE`, expiry `0` on absence or parse failure, per `cookieLine1`). -/
theorem c6_required_fields (c : RawCookie) :
    (cookieLines c ≠ [] ↔
      (cookieName c ≠ "" ∧ cookieValue c ≠ "" ∧ c.domain.getD "" ≠ "")) ∧
    ((cookieLines c).head? = some (cookieLine1 c) ∨ cookieLines c = []) := by
  have hw := cookieWritten_iff c
  have hd := dotDomain_ne_iff c
  unfold cookieLines
  by_cases h : cookieWritten c = true
  · rw [if_pos h]
    constructor
    · constructor
      · intro _
        have hp := hw.mp h
        exact ⟨hp.1, hp.2.1, hd.mp hp.2.2⟩
      · intro _
        by_cases hc : strContains (dotDomain c) "x.com" = true
        · rw [if_pos hc]
          simp
        · rw [if_neg hc]
          simp
    · left
      by_cases hc : strContains (dotDomain c) "x.com" = true
      · rw [if_pos hc]
        rfl
      · rw [if_neg hc]
        rfl
  · rw [if_neg h]
    refine ⟨⟨fun hne => absurd rfl hne, fun hp =>
      absurd (hw.mpr ⟨hp.1, hp.2.1, hd.mpr hp.2.2⟩) h⟩, Or.inr rfl⟩

/-- Claim C6 (amended), instantiated on the no-domain record and on the
spec cookie. -/
theorem c6_required_fields_witness :
    ¬(cookieLines noDomainCookie ≠ []) ∧ cookieLines specCookie ≠ [] :=
  ⟨fun hne => absurd ((c6_required_fields noDomainCookie).1.mp hne).2.2 (by decide),
   (c6_required_fields specCookie).1.mpr (by decide)⟩

/-- Claim C7: on the spec's single-cookie input the transform emits the
header followed by exactly the `.x.com` line and its `.twitter.com`
duplicate, each with 7 tab-separated fields, `TRUE` host-only flag, `TRUE`
secure flag, path `/` and expiry `0`. -/
theorem c7_spec_cookie_output :
    convert_raw_cookies_to_netscape [specCookie] =
      netscapeHeader ++
        [".x.com\tTRUE\t/\tTRUE\t0\ta\tb", ".twitter.com\tTRUE\t/\tTRUE\t0\ta\tb"] ∧
    ∀ line ∈ (convert_raw_cookies_to_netscape [specCookie]).drop 3,
      tabFieldCount line = 7 := by
  constructor
  · rfl
  · decide

/-- Claim C8 counterexample: the duplicate-line test is a substring check
(`'x.com' in domain`), so a cookie for `netflix.com` — whose dot-prefixed
domain is not the social-media domain `.x.com` — also receives a
duplicate, with the embedded `x.com` fragment rewritten inside it. -/
theorem c8_counterexample :
    dotDomain netflixCookie = ".netflix.com" ∧
    dotDomain netflixCookie ≠ ".x.com" ∧
    dotDomain netflixCookie ≠ "x.com" ∧
    cookieLines netflixCookie =
      [".netflix.com\tTRUE\t/\tFALSE\t0\ta\tb",
       ".netflitwitter.com\tTRUE\t/\tFALSE\t0\ta\tb"] := by
  decide

/-- Claim C8 (amended): a written cookie gets exactly one duplicate line
precisely when its dot-prefixed domain contains `x.com` as a substring,
the duplicate being the same fields with every `x.com` occurrence in the
domain replaced by `twitter.com`; otherwise only the single primary line
is emitted. -/
theorem c8_duplicate_iff_substring (c : RawCookie) (h : cookieWritten c = true) :
    (strContains (dotDomain c) "x.com" = true →
      cookieLines c = [cookieLine1 c, cookieLine2 c]) ∧
    (strContains (dotDomain c) "x.com" = false →
      cookieLines c = [cookieLine1 c]) := by
  unfold cookieLines
  rw [if_pos h]
  constructor
  · intro hc
    rw [if_pos hc]
  · intro hc
    rw [if_neg (by simp [hc])]

/-- Claim C8 (amended), instantiated on the spec cookie (domain `.x.com`). -/
theorem c8_duplicate_iff_substring_witness :
    cookieWritten specCookie = true ∧
    cookieLines specCookie = [cookieLine1 specCookie, cookieLine2 specCookie] :=
  ⟨by decide, (c8_duplicate_iff_substring specCookie (by decide)).1 (by decide)⟩

set_option maxRecDepth 100000 in
/-- Claim C4 counterexample: two spellings of the same post normalize to
the same canonical URL, yet `fetch_video_data` keys its cache on the raw
URL (line 669, before normalization), so the two spellings receive
different cache keys and distinct cache entries. -/
theorem c4_counterexample :
    normalize_twitter_url "https://twitter.com/bob/status/1" =
      normalize_twitter_url "https://x.com/bob/status/1" ∧
    fetch_cache_key "https://twitter.com/bob/status/1" ≠
      fetch_cache_key "https://x.com/bob/status/1" := by
  constructor
  · rfl
  · decide

set_option maxRecDepth 100000 in
/-- Claim C4 (amended): the cache key used by the video-fetch operation is
the deterministic MD5 hex digest of the raw input URL as received — not of
the normalized URL — so byte-identical raw URLs share one key, while raw
URLs that differ only by normalization (surrounding whitespace here) get
different keys. -/
theorem c4_cache_key_raw_url :
    (∀ url : String, fetch_cache_key url = md5Hex (utf8Bytes url)) ∧
    (∀ u v : String, u = v → fetch_cache_key u = fetch_cache_key v) ∧
    normalize_twitter_url " https://x.com/bob/status/1 " = "https://x.com/bob/status/1" ∧
    fetch_cache_key " https://x.com/bob/status/1 " ≠
      fetch_cache_key "https://x.com/bob/status/1" := by
  refine ⟨fun url => rfl, fun u v h => h ▸ rfl, rfl, by decide⟩

/-- Claim C4 (amended), instantiated: determinism on equal raw URLs. -/
theorem c4_cache_key_raw_url_witness :
    fetch_cache_key "https://x.com/a/status/1" = fetch_cache_key "https://x.com/a/status/1" :=
  c4_cache_key_raw_url.2.1 "https://x.com/a/status/1" "https://x.com/a/status/1" rfl

/-- Claim C9 counterexample: when the first extraction attempt fails with
an authentication-suggesting error text and a cookies file exists, the
dispatcher invokes the extraction collaborator a second time — more than
the "at most once" the claim allows. -/
theorem c9_counterexample :
    (extract_video_info_run authFailEnv).2 = 2 ∧
    ¬(extract_video_info_run authFailEnv).2 ≤ 1 := by
  decide

/-- Claim C9 (amended): the collaborator is invoked at most twice per
request; exactly twice precisely when the first attempt failed with an
error whose text contains an authentication keyword while a cookies file
exists, and a failing first attempt without such a keyword is surfaced
unchanged after a single invocation. -/
theorem c9_retry_structure {R : Type} (env : ExtractAttempts R) :
    (extract_video_info_run env).2 ≤ 2 ∧
    ((extract_video_info_run env).2 = 2 ↔
      ∃ e, env.firstAttempt = Except.error e ∧ suggests_auth e = true ∧
        env.cookiesFileExists = true) ∧
    (∀ e, env.firstAttempt = Except.error e → suggests_auth e = false →
      extract_video_info_run env = (Except.error e, 1)) := by
  rcases env with ⟨fa, ca, ck⟩
  cases fa with
  | ok r =>
    refine ⟨by simp [extract_video_info_run], ⟨?_, ?_⟩, ?_⟩
    · intro h2
      simp [extract_video_info_run] at h2
    · rintro ⟨e, he, -, -⟩
      simp at he
    · intro e he
      simp at he
  | error e =>
    by_cases hs : suggests_auth e = true
    · cases ck with
      | true =>
        refine ⟨by simp [extract_video_info_run, hs], ⟨?_, ?_⟩, ?_⟩
        · intro _
          exact ⟨e, rfl, hs, rfl⟩
        · intro _
          simp [extract_video_info_run, hs]
        · intro e' he' hs'
          obtain rfl : e = e' := by simpa using he'
          rw [hs] at hs'
          cases hs'
      | false =>
        refine ⟨by simp [extract_video_info_run, hs], ⟨?_, ?_⟩, ?_⟩
        · intro h2
          simp [extract_video_info_run, hs] at h2
        · rintro ⟨e', -, -, hck⟩
          simp at hck
        · intro e' he' hs'
          obtain rfl : e = e' := by simpa using he'
          simp [extract_video_info_run, hs]
    · have hs0 : suggests_auth e = false := by simpa using hs
      refine ⟨by simp [extract_video_info_run, hs0], ⟨?_, ?_⟩, ?_⟩
      · intro h2
        simp [extract_video_info_run, hs0] at h2
      · rintro ⟨e', he', hsa, -⟩
        obtain rfl : e = e' := by simpa using he'
        rw [hs0] at hsa
        cases hsa
      · intro e' he' _
        obtain rfl : e = e' := by simpa using he'
        simp [extract_video_info_run, hs0]

/-- Claim C9 (amended), instantiated: a non-authentication failure is
surfaced after a single collaborator invocation. -/
theorem c9_retry_structure_witness :
    (extract_video_info_run plainFailEnv).2 ≤ 2 ∧
    extract_video_info_run plainFailEnv = (Except.error "Unsupported URL: boom", 1) :=
  ⟨(c9_retry_structure plainFailEnv).1,
   (c9_retry_structure plainFailEnv).2.2 "Unsupported URL: boom" rfl (by decide)⟩
